import Mathlib

/-!
Shallow embedding of the Janus sample event handler plugin
(`src/events/janus_sampleevh.c`) and proofs about its specification.

The embedding follows the C source: the subscription-mask parser in
`janus_sampleevh_init`, the backend URL validation (`strstr` at offset
zero), the lifecycle operations `janus_sampleevh_init` /
`janus_sampleevh_destroy`, the ingress callback
`janus_sampleevh_incoming_event`, one iteration of the worker loop
`janus_sampleevh_handler`, and the queue destroy notifier
`janus_sampleevh_event_free`.
-/

namespace JanusSampleEvh

/-- The event kinds of the subscription mask, one per bit
(`JANUS_EVENT_TYPE_SESSION`, ..., `JANUS_EVENT_TYPE_TRANSPORT`).
Modelled from the spec: the numeric bit values live in `eventhandler.h`,
which is not among the sources; the spec describes the mask as a set over
these seven kinds. -/
inductive EventType where
  | session
  | handle
  | jsep
  | webrtc
  | media
  | plugin
  | transport
deriving DecidableEq, Repr

/-- The subscription mask `janus_sampleevh.events_mask`: a bit per event
kind, here one `Bool` field per kind. `JANUS_EVENT_TYPE_NONE` is the
all-false mask. -/
structure Mask where
  session : Bool := false
  handle : Bool := false
  jsep : Bool := false
  webrtc : Bool := false
  media : Bool := false
  plugin : Bool := false
  transport : Bool := false
deriving DecidableEq, Repr

/-- `JANUS_EVENT_TYPE_NONE`, also the result of `janus_flags_reset`. -/
def Mask.empty : Mask := {}

/-- The mask with every bit set: the result of
`janus_flags_set(mask, JANUS_EVENT_TYPE_ALL)`. -/
def Mask.full : Mask :=
  { session := true, handle := true, jsep := true, webrtc := true,
    media := true, plugin := true, transport := true }

/-- `janus_flags_set` for a single event-kind bit. -/
def Mask.setFlag (m : Mask) : EventType → Mask
  | .session => { m with session := true }
  | .handle => { m with handle := true }
  | .jsep => { m with jsep := true }
  | .webrtc => { m with webrtc := true }
  | .media => { m with media := true }
  | .plugin => { m with plugin := true }
  | .transport => { m with transport := true }

/-- Bitwise union of two masks. -/
def Mask.union (a b : Mask) : Mask :=
  { session := a.session || b.session, handle := a.handle || b.handle,
    jsep := a.jsep || b.jsep, webrtc := a.webrtc || b.webrtc,
    media := a.media || b.media, plugin := a.plugin || b.plugin,
    transport := a.transport || b.transport }

/-- ASCII lower-casing of one character, as C `tolower` in the C locale
(used by `strcasecmp`). -/
def asciiLower (c : Char) : Char :=
  if 'A' ≤ c ∧ c ≤ 'Z' then Char.ofNat (c.toNat + 32) else c

/-- Lower-case an entire string, character by character. -/
def lowerStr (s : String) : String := String.mk (s.data.map asciiLower)

/-- `strcasecmp(a, b) == 0`: case-insensitive string equality. -/
def caseEq (a b : String) : Bool := lowerStr a == lowerStr b

/-- C `isspace` in the C locale: space, tab, newline, vertical tab,
form feed, carriage return. -/
def isCSpace (c : Char) : Bool :=
  c == ' ' || c == '\t' || c == '\n' || c == '\x0b' || c == '\x0c' || c == '\r'

/-- The `while(isspace(*index)) index++;` loop of the token scan: drop
leading whitespace only. -/
def dropLeadingSpace (s : String) : String :=
  String.mk (s.data.dropWhile isCSpace)

/-- The case-insensitive token table of `janus_sampleevh_init`
(lines 143-156): `sessions`, `handles`, `jsep`, `webrtc`, `media`,
`plugins`, `transports`. -/
def kindOfName (u : String) : Option EventType :=
  if caseEq u "sessions" then some .session
  else if caseEq u "handles" then some .handle
  else if caseEq u "jsep" then some .jsep
  else if caseEq u "webrtc" then some .webrtc
  else if caseEq u "media" then some .media
  else if caseEq u "plugins" then some .plugin
  else if caseEq u "transports" then some .transport
  else none

/-- What the token loop does with one raw token from `g_strsplit`: skip it
(empty after leading-whitespace removal), set one mask bit, or log the
unknown-token warning (which prints the leading-stripped token). -/
inductive TokenAct where
  | skip
  | setKind (k : EventType)
  | unknown (t : String)
deriving DecidableEq, Repr

/-- Classify one raw token exactly as the loop body at lines 139-160. -/
def tokenAct (t : String) : TokenAct :=
  let u := dropLeadingSpace t
  if u == "" then .skip
  else
    match kindOfName u with
    | some k => .setKind k
    | none => .unknown u

/-- One step of the token loop over the running (mask, warnings) pair. -/
def applyToken (s : Mask × List String) (t : String) : Mask × List String :=
  match tokenAct t with
  | .skip => s
  | .setKind k => (s.1.setFlag k, s.2)
  | .unknown u => (s.1, s.2 ++ [u])

/-- Split a character list at every comma, keeping empty pieces, as
`g_strsplit(value, ",", -1)` does. -/
def splitCommaAux : List Char → List Char → List (List Char)
  | [], acc => [acc.reverse]
  | c :: t, acc =>
    if c == ',' then acc.reverse :: splitCommaAux t []
    else splitCommaAux t (c :: acc)

/-- `g_strsplit(value, ",", -1)` on a string. -/
def splitComma (s : String) : List String :=
  (splitCommaAux s.data []).map String.mk

/-- Parsing of `general.events` (lines 126-167), given the current mask:
literal `none` resets the mask, literal `all` sets every bit, anything
else is split at every comma and folded through the token loop.
Returns the new mask and the list of unknown-token warnings. -/
def parseEventsValue (m : Mask) (v : String) : Mask × List String :=
  if caseEq v "none" then (Mask.empty, [])
  else if caseEq v "all" then (Mask.full, [])
  else (splitComma v).foldl applyToken (m, [])

/-- The mask contributed by a token list alone (starting from no bits). -/
def tokensMask (ts : List String) : Mask :=
  ts.foldl
    (fun m t =>
      match tokenAct t with
      | .setKind k => m.setFlag k
      | _ => m)
    Mask.empty

/-- The warnings emitted by a token list. -/
def tokensWarnings (ts : List String) : List String :=
  ts.filterMap
    (fun t =>
      match tokenAct t with
      | .unknown u => some u
      | _ => none)

/-- Index of the first occurrence of `pat` inside the haystack starting at
offset `i`, as `strstr` computes it. -/
def strstrIdxAux (pat : List Char) : List Char → Nat → Option Nat
  | hay, i =>
    if pat.isPrefixOf hay then some i
    else
      match hay with
      | [] => none
      | _ :: t => strstrIdxAux pat t (i + 1)

/-- `strstr(hay, pat)` as the offset of the first occurrence, if any. -/
def strstrIdx (hay pat : String) : Option Nat :=
  strstrIdxAux pat.data hay.data 0

/-- The backend check of line 119: `strstr(value, "http") == value`, i.e.
the first occurrence of the literal `http` is at offset zero. -/
def backendValid (s : String) : Bool := strstrIdx s "http" == some 0

/-- A JSON value as handled through the jansson `json_t` interface:
null, boolean, integer, real, string, array, object (with ordered
fields). The worker only ever asks whether the `timestamp` member is an
integer, so the real's floating-point payload is immaterial and elided. -/
inductive Json where
  | jnull
  | jbool (b : Bool)
  | jint (n : Int)
  | jreal
  | jstr (s : String)
  | jarr (xs : List Json)
  | jobj (fields : List (String × Json))
deriving Repr

/-- `json_object_get(v, key)`: the first member with the given key when
`v` is an object, otherwise NULL. -/
def jsonObjectGet (v : Json) (key : String) : Option Json :=
  match v with
  | .jobj fields =>
    match fields.find? (fun f => f.1 == key) with
    | some f => some f.2
    | none => none
  | _ => none

/-- `json_is_integer`. -/
def jsonIsInteger : Json → Bool
  | .jint _ => true
  | _ => false

/-- `json_is_number`: true for integers and reals alike. -/
def jsonIsNumber : Json → Bool
  | .jint _ => true
  | .jreal => true
  | _ => false

/-- One entry of the `events` queue: a referenced event (identified by a
numeric handle; its JSON contents live in a separate environment) or the
address of the static `exit_event` sentinel. -/
inductive Entry where
  | ev (id : Nat)
  | sentinel
deriving DecidableEq, Repr

/-- The pair of lifecycle flags `(initialized, stopping)`; both are
volatile atomics in the source, written with `g_atomic_int_set`. -/
structure FlagPair where
  initialized : Bool
  stopping : Bool
deriving DecidableEq, Repr

/-- The plugin's global state: the two lifecycle flags, the static
descriptor's `events_mask`, the `backend` string, the `events` queue
(`none` when not created), whether `curl_global_init` has run, and
whether the `handler_thread` is live. -/
structure EvhState where
  initialized : Bool := false
  stopping : Bool := false
  eventsMask : Mask := {}
  backend : Option String := Option.none
  queue : Option (List Entry) := Option.none
  curlInited : Bool := false
  handlerThread : Bool := false
deriving DecidableEq, Repr

/-- The current value of the lifecycle flag pair. -/
def EvhState.flags (s : EvhState) : FlagPair := ⟨s.initialized, s.stopping⟩

/-- The `general` section of the parsed configuration file, as the items
`janus_sampleevh_init` drills down to; a missing key or a key with no
value is `none`. -/
structure Config where
  enabled : Option String := Option.none
  backend : Option String := Option.none
  events : Option String := Option.none
deriving DecidableEq, Repr

/-- Modelled from the spec: `janus_is_true` lives in the core's
`utils.c`, which is not among the sources; the spec asks for a bool-ish
truthy value, which Janus spells as `yes`, `true` (case-insensitive)
or `1`. -/
def isTrue (v : String) : Bool := caseEq v "yes" || caseEq v "true" || v == "1"

/-- The outcome of `janus_sampleevh_init`: the return code, the
resulting global state, and the successive values taken by the
lifecycle flag pair (entry value first, then one element per
`g_atomic_int_set` on either flag). -/
structure InitResult where
  ret : Int
  st : EvhState
  flagTrace : List FlagPair
deriving DecidableEq, Repr

/-- `janus_sampleevh_init(config_path)` (lines 92-201). `cfg?` is the
result of `janus_config_parse`: `none` when the file could not be
parsed, in which case `enabled` stays false. `threadFail` tells whether
`g_thread_try_new` errors out. -/
def sampleevhInit (st : EvhState) (configPath : Option String)
    (cfg? : Option Config) (threadFail : Bool) : InitResult :=
  let p0 := st.flags
  if st.stopping then ⟨-1, st, [p0]⟩
  else if configPath.isNone then ⟨-1, st, [p0]⟩
  else
    let parsed : Bool × EvhState :=
      match cfg? with
      | Option.none => (false, st)
      | some cfg =>
        match cfg.enabled with
        | Option.none => (false, st)
        | some en =>
          if ¬ isTrue en then (false, st)
          else
            match cfg.backend with
            | Option.none => (false, st)
            | some b =>
              if ¬ backendValid b then (false, st)
              else
                let st1 := { st with backend := some b }
                let st2 :=
                  match cfg.events with
                  | Option.none => st1
                  | some v =>
                    { st1 with eventsMask := (parseEventsValue st1.eventsMask v).1 }
                (true, st2)
    if ¬ parsed.1 then ⟨-1, parsed.2, [p0]⟩
    else
      let st3 := { parsed.2 with curlInited := true, queue := some [], initialized := true }
      if threadFail then
        ⟨-1, { st3 with initialized := false },
          [p0, ⟨true, st.stopping⟩, ⟨false, st.stopping⟩]⟩
      else
        ⟨0, { st3 with handlerThread := true }, [p0, ⟨true, st.stopping⟩]⟩

/-- `janus_sampleevh_event_free`, the queue's `GDestroyNotify`
(lines 79-83): NULL and the `exit_event` sentinel are left alone, a real
event gets one `json_decref`; the result lists the event references
released. -/
def eventFreeReleases : Option Entry → List Nat
  | Option.none => []
  | some Entry.sentinel => []
  | some (Entry.ev i) => [i]

/-- The references released when `g_async_queue_unref` drains a queue
still holding `q`, calling the destroy notifier on every entry. -/
def queueDrainReleases (q : List Entry) : List Nat :=
  (q.map (fun e => eventFreeReleases (some e))).flatten

/-- The outcome of `janus_sampleevh_destroy`: the resulting state, the
flag-pair trace (as in `InitResult`), and the references released by the
queue drain. -/
structure DestroyResult where
  st : EvhState
  flagTrace : List FlagPair
  drainReleased : List Nat
deriving DecidableEq, Repr

/-- `janus_sampleevh_destroy` (lines 203-222): bail out if not
initialised; set `stopping`, push the sentinel, join the worker, unref
the queue (draining it through the notifier), free the backend, then
clear `initialized` and `stopping` with two separate atomic writes. -/
def sampleevhDestroy (st : EvhState) : DestroyResult :=
  let p0 := st.flags
  if ¬ st.initialized then ⟨st, [p0], []⟩
  else
    let q1 := (st.queue.getD []) ++ [Entry.sentinel]
    let rel := queueDrainReleases q1
    let stEnd : EvhState :=
      { st with stopping := false, initialized := false, handlerThread := false,
                queue := Option.none, backend := Option.none }
    ⟨stEnd, [p0, ⟨st.initialized, true⟩, ⟨false, true⟩, ⟨false, false⟩], rel⟩

/-- A reference-count action on an event: `json_incref` or
`json_decref`. -/
inductive RefAct where
  | incref (id : Nat)
  | decref (id : Nat)
deriving DecidableEq, Repr

/-- The observable outcome of one ingress call: the queue afterwards,
the reference-count actions performed (in order), and the events POSTed
to the backend (the callback performs no I/O, so this stays empty). -/
structure IngressResult where
  q : List Entry
  refActs : List RefAct
  posted : List Nat
deriving DecidableEq, Repr

/-- `janus_sampleevh_incoming_event(event)` (lines 253-270), given the
current flag pair and queue. The callback receives the full `json_t`
value; `content` is carried only to state that it is never looked at. -/
def incomingEvent (fl : FlagPair) (q : List Entry) (id : Nat)
    (_content : Json) : IngressResult :=
  if fl.stopping || !fl.initialized then
    ⟨q, [RefAct.decref id], []⟩
  else
    ⟨q ++ [Entry.ev id], [RefAct.incref id], []⟩

/-- The observable outcome of one iteration of the worker loop
`janus_sampleevh_handler` (lines 277-322): whether the loop was left,
whether the iteration is still blocked in `g_async_queue_pop`, the queue
afterwards, the references released (`json_decref`), the events POSTed
(serialised and handed to `curl_easy_perform`), and the latency debug
value logged, if any. -/
structure StepResult where
  exited : Bool
  blocked : Bool
  q : List Entry
  released : List Nat
  posted : List Nat
  latencyLog : Option Int
deriving DecidableEq, Repr

/-- One iteration of the worker loop, with the flag pair read at the top
of the loop, `curlOk` telling whether `curl_easy_init` succeeds, `now`
the value of `janus_get_monotonic_time`, and `content` the JSON value
behind each event reference.

The `while` guard reads both flags before `g_async_queue_pop`; once a
non-sentinel event has been popped there is no further flag check: the
event is serialised, POSTed (when curl is available) and then
released. -/
def handlerStep (fl : FlagPair) (curlOk : Bool) (now : Int)
    (content : Nat → Json) (q : List Entry) : StepResult :=
  if !(fl.initialized && !fl.stopping) then
    ⟨true, false, q, [], [], Option.none⟩
  else
    match q with
    | [] => ⟨false, true, [], [], [], Option.none⟩
    | Entry.sentinel :: rest => ⟨true, false, rest, [], [], Option.none⟩
    | Entry.ev i :: rest =>
      let lat :=
        match jsonObjectGet (content i) "timestamp" with
        | some (Json.jint t) => some (now - t)
        | _ => Option.none
      if curlOk then ⟨false, false, rest, [i], [i], lat⟩
      else ⟨false, false, rest, [i], [], lat⟩

/-- The lifecycle flag-pair transitions the specification lists as
legal, plus staying put: `(F,F) → (T,F)`, `(T,F) → (T,T)`,
`(T,T) → (F,F)`. -/
def legalSpecStep (a b : FlagPair) : Bool :=
  a == b
    || (a == ⟨false, false⟩ && b == ⟨true, false⟩)
    || (a == ⟨true, false⟩ && b == ⟨true, true⟩)
    || (a == ⟨true, true⟩ && b == ⟨false, false⟩)

/-- The transitions the code actually performs: the specification's
three, plus the init-failure rollback `(T,F) → (F,F)` and the two
separate writes at the end of destroy, `(T,T) → (F,T)` and
`(F,T) → (F,F)`. -/
def legalExtStep (a b : FlagPair) : Bool :=
  legalSpecStep a b
    || (a == ⟨true, false⟩ && b == ⟨false, false⟩)
    || (a == ⟨true, true⟩ && b == ⟨false, true⟩)
    || (a == ⟨false, true⟩ && b == ⟨false, false⟩)

/-- Every adjacent pair of a trace satisfies the step predicate. -/
def chainOk (f : FlagPair → FlagPair → Bool) : List FlagPair → Bool
  | [] => true
  | [_] => true
  | a :: b :: t => f a b && chainOk f (b :: t)

/-- The mask contribution of one raw token. -/
def maskStep (m : Mask) (t : String) : Mask :=
  match tokenAct t with
  | .setKind k => m.setFlag k
  | _ => m

/-- An event whose JSON contents carry nothing of interest. -/
def contEmpty : Nat → Json := fun _ => Json.jobj []

/-- An event whose `timestamp` member is a JSON real: numeric, but not
an integer. -/
def evReal : Json := Json.jobj [("timestamp", Json.jreal)]

/-- Content environment mapping every event reference to `evReal`. -/
def contReal : Nat → Json := fun _ => evReal

/-- An event carrying the integer timestamp 25. -/
def evInt : Json := Json.jobj [("timestamp", Json.jint 25)]

/-- Content environment mapping every event reference to `evInt`. -/
def contInt : Nat → Json := fun _ => evInt

/-- A live plugin state: initialised, not stopping, with an empty
queue. -/
def stLive : EvhState :=
  { initialized := true, queue := some [], backend := some "http://x",
    curlInited := true, handlerThread := true }

theorem Mask.union_empty (m : Mask) : Mask.union m Mask.empty = m := by
  cases m
  simp [Mask.union, Mask.empty]

theorem Mask.empty_union (m : Mask) : Mask.union Mask.empty m = m := by
  cases m
  simp [Mask.union, Mask.empty]

theorem Mask.union_assoc (a b c : Mask) :
    Mask.union (Mask.union a b) c = Mask.union a (Mask.union b c) := by
  cases a
  cases b
  cases c
  simp [Mask.union, Bool.or_assoc]

theorem Mask.setFlag_eq_union (m : Mask) (k : EventType) :
    m.setFlag k = Mask.union m (Mask.empty.setFlag k) := by
  cases m
  cases k <;> simp [Mask.setFlag, Mask.union, Mask.empty]

theorem tokensMask_eq_foldl (ts : List String) :
    tokensMask ts = ts.foldl maskStep Mask.empty := by
  unfold tokensMask maskStep
  rfl

theorem foldl_maskStep_union (ts : List String) :
    ∀ m : Mask, ts.foldl maskStep m = Mask.union m (tokensMask ts) := by
  induction ts with
  | nil =>
    intro m
    simp [tokensMask, Mask.union_empty]
  | cons t ts ih =>
    intro m
    have hts : tokensMask (t :: ts) = ts.foldl maskStep (maskStep Mask.empty t) := by
      rw [tokensMask_eq_foldl]
      rfl
    rw [List.foldl_cons, ih (maskStep m t), hts, ih (maskStep Mask.empty t)]
    rcases h : tokenAct t with _ | k | u
    · simp [maskStep, h, Mask.empty_union]
    · simp [maskStep, h, Mask.setFlag_eq_union m k, Mask.union_assoc]
    · simp [maskStep, h, Mask.empty_union]

theorem foldl_applyToken_eq (ts : List String) :
    ∀ (m : Mask) (w : List String),
      ts.foldl applyToken (m, w) = (ts.foldl maskStep m, w ++ tokensWarnings ts) := by
  induction ts with
  | nil =>
    intro m w
    simp [tokensWarnings]
  | cons t ts ih =>
    intro m w
    rcases h : tokenAct t with _ | k | u <;>
      simp [applyToken, maskStep, tokensWarnings, List.filterMap_cons, h, ih]

/-- Full characterisation of the list branch of the events parser: the
resulting mask is the old mask united with the token contributions, and
the warnings are exactly the unknown tokens in order. -/
theorem parseEventsValue_eq {m : Mask} {v : String}
    (hn : caseEq v "none" = false) (ha : caseEq v "all" = false) :
    parseEventsValue m v
      = (Mask.union m (tokensMask (splitComma v)), tokensWarnings (splitComma v)) := by
  unfold parseEventsValue
  rw [hn, ha]
  simp [foldl_applyToken_eq, foldl_maskStep_union]

theorem strstrIdxAux_ge (pat : List Char) :
    ∀ (hay : List Char) (i j : Nat), strstrIdxAux pat hay i = some j → i ≤ j := by
  intro hay
  induction hay with
  | nil =>
    intro i j h
    unfold strstrIdxAux at h
    by_cases hp : pat.isPrefixOf [] = true
    · simp [hp] at h
      omega
    · simp [hp] at h
  | cons c t ih =>
    intro i j h
    unfold strstrIdxAux at h
    by_cases hp : pat.isPrefixOf (c :: t) = true
    · simp [hp] at h
      omega
    · simp [hp] at h
      have := ih (i + 1) j h
      omega

/-- The `strstr(value, "http") == value` test is exactly the prefix test
for the literal `http`. -/
theorem backendValid_eq (b : String) :
    backendValid b = List.isPrefixOf "http".data b.data := by
  unfold backendValid strstrIdx
  cases hb : b.data with
  | nil => decide
  | cons c t =>
    by_cases hp : List.isPrefixOf "http".data (c :: t) = true
    · unfold strstrIdxAux
      simp [hp]
    · unfold strstrIdxAux
      simp [hp]
      cases hr : strstrIdxAux "http".data t 1 with
      | none => simp
      | some j =>
        have hj := strstrIdxAux_ge "http".data t 1 j hr
        simp
        omega

/-- C1: the ingress callback `janus_sampleevh_incoming_event` never
depends on the event's contents and performs no I/O; when `stopping` is
set or `initialised` is clear it releases the incoming reference exactly
once and enqueues nothing, and otherwise it acquires exactly one
additional reference and pushes the event onto the queue. -/
theorem claim_C1_ingress (fl : FlagPair) (q : List Entry) (id : Nat) (c c' : Json) :
    incomingEvent fl q id c = incomingEvent fl q id c'
    ∧ ((fl.stopping = true ∨ fl.initialized = false) →
        incomingEvent fl q id c = ⟨q, [RefAct.decref id], []⟩)
    ∧ (fl.stopping = false → fl.initialized = true →
        incomingEvent fl q id c = ⟨q ++ [Entry.ev id], [RefAct.incref id], []⟩) := by
  obtain ⟨i, s⟩ := fl
  refine ⟨rfl, ?_, ?_⟩
  · rintro (h | h) <;> simp_all [incomingEvent]
  · intro hs hi
    simp_all [incomingEvent]

/-- Witness for C1 at concrete inputs: a live plugin enqueues and
increfs; a stopping plugin only decrefs. -/
theorem claim_C1_ingress_witness :
    incomingEvent ⟨true, false⟩ [] 5 Json.jnull = ⟨[Entry.ev 5], [RefAct.incref 5], []⟩
    ∧ incomingEvent ⟨true, true⟩ [] 5 Json.jnull = ⟨[], [RefAct.decref 5], []⟩ :=
  ⟨(claim_C1_ingress ⟨true, false⟩ [] 5 Json.jnull Json.jnull).2.2 rfl rfl,
   (claim_C1_ingress ⟨true, true⟩ [] 5 Json.jnull Json.jnull).2.1 (Or.inl rfl)⟩

/-- C2 counterexample: the token scan strips leading whitespace only, so
in `sessions, handles , foo` the token ` handles ` becomes `handles `
(trailing space kept), fails the case-insensitive table lookup, and is
warned about as unknown: the resulting mask lacks the `handle` bit and
there are two warnings, not one. -/
theorem claim_C2_counterexample :
    (parseEventsValue Mask.empty "sessions, handles , foo").1.handle = false
    ∧ (parseEventsValue Mask.empty "sessions, handles , foo").1 = { session := true }
    ∧ (parseEventsValue Mask.empty "sessions, handles , foo").2 = ["handles ", "foo"] := by
  refine ⟨?_, ?_, ?_⟩ <;> decide

/-- C2 (amended): each comma-separated token is stripped of leading
whitespace only and then case-insensitively mapped through the table;
tokens that remain unknown (including those left with trailing
whitespace) are warned about and ignored, empty tokens are ignored; the
mask is the old mask united with the recognised kinds. Parsing
`sessions, handles , foo` therefore yields the mask `{session}` with
warnings for `handles ` and for `foo`. -/
theorem claim_C2_amended (m : Mask) (v : String)
    (hn : caseEq v "none" = false) (ha : caseEq v "all" = false) :
    parseEventsValue m v
      = (Mask.union m (tokensMask (splitComma v)), tokensWarnings (splitComma v))
    ∧ parseEventsValue Mask.empty "sessions, handles , foo"
      = ({ session := true }, ["handles ", "foo"]) := by
  refine ⟨parseEventsValue_eq hn ha, by decide⟩

/-- Witness for C2 (amended) at a concrete list value. -/
theorem claim_C2_amended_witness :
    caseEq "sessions,plugins" "none" = false
    ∧ caseEq "sessions,plugins" "all" = false
    ∧ parseEventsValue Mask.empty "sessions,plugins"
      = (Mask.union Mask.empty (tokensMask (splitComma "sessions,plugins")),
          tokensWarnings (splitComma "sessions,plugins")) :=
  ⟨by decide, by decide,
    (claim_C2_amended Mask.empty "sessions,plugins" (by decide) (by decide)).1⟩

/-- C3 counterexample: the worker's flag check is the `while` guard,
evaluated before `g_async_queue_pop`. With `initialised` false and a
non-sentinel event at the head of the queue, the worker exits the loop
without popping: the event is not released (the claim says its reference
is released) and the queue is left untouched. -/
theorem claim_C3_counterexample :
    (handlerStep ⟨false, false⟩ true 0 contEmpty [Entry.ev 0]).released = []
    ∧ (handlerStep ⟨false, false⟩ true 0 contEmpty [Entry.ev 0]).q = [Entry.ev 0]
    ∧ (handlerStep ⟨false, false⟩ true 0 contEmpty [Entry.ev 0]).released ≠ [0] := by
  refine ⟨rfl, rfl, by decide⟩

/-- C3 (amended): the defensive flag check sits in the loop guard,
before the pop: when `initialised` is false or `stopping` is true the
worker exits the loop without popping, releasing or posting anything;
a non-sentinel event popped while the flags were good is always fully
processed and released, with no further flag check. -/
theorem claim_C3_amended (fl : FlagPair) (curlOk : Bool) (now : Int)
    (content : Nat → Json) (q : List Entry) :
    ((fl.initialized = false ∨ fl.stopping = true) →
      handlerStep fl curlOk now content q = ⟨true, false, q, [], [], Option.none⟩)
    ∧ (fl.initialized = true → fl.stopping = false →
        ∀ i rest, q = Entry.ev i :: rest →
          (handlerStep fl curlOk now content q).released = [i]
          ∧ (handlerStep fl curlOk now content q).exited = false
          ∧ (handlerStep fl curlOk now content q).q = rest) := by
  obtain ⟨fi, fs⟩ := fl
  constructor
  · rintro (h | h) <;> simp_all [handlerStep]
  · intro hi hs i rest hq
    subst hq
    simp_all [handlerStep]
    cases curlOk <;> simp

/-- Witness for C3 (amended): with `initialised` false the worker exits
leaving the queue alone, and with good flags it pops and releases. -/
theorem claim_C3_amended_witness :
    handlerStep ⟨false, false⟩ true 0 contEmpty [Entry.ev 0]
      = ⟨true, false, [Entry.ev 0], [], [], Option.none⟩
    ∧ (handlerStep ⟨true, false⟩ true 0 contEmpty [Entry.ev 1]).released = [1] :=
  ⟨(claim_C3_amended ⟨false, false⟩ true 0 contEmpty [Entry.ev 0]).1 (Or.inl rfl),
   ((claim_C3_amended ⟨true, false⟩ true 0 contEmpty [Entry.ev 1]).2 rfl rfl 1 [] rfl).1⟩

/-- C4 counterexample: on the init path where the worker thread fails to
start, the code sets `initialised` and then rolls it back, so the flag
pair takes `(F,F) → (T,F) → (T,F) → (F,F)`; the step `(T,F) → (F,F)` is
not among the three transitions the claim allows, hence the trace
violates the claimed transition relation. -/
theorem claim_C4_counterexample :
    (sampleevhInit {} (some "conf")
        (some { enabled := some "yes", backend := some "http://x" }) true).flagTrace
      = [⟨false, false⟩, ⟨true, false⟩, ⟨false, false⟩]
    ∧ chainOk legalSpecStep
        (sampleevhInit {} (some "conf")
          (some { enabled := some "yes", backend := some "http://x" }) true).flagTrace
      = false
    ∧ legalSpecStep ⟨true, false⟩ ⟨false, false⟩ = false := by
  refine ⟨by decide, by decide, by decide⟩

/-- C4 (amended): at the granularity of the individual atomic flag
writes, every change of the pair `(initialised, stopping)` in init or in
destroy is one of: the specification's `(F,F) → (T,F)`,
`(T,F) → (T,T)`, `(T,T) → (F,F)`; the init-failure rollback
`(T,F) → (F,F)`; or the two separate writes ending destroy,
`(T,T) → (F,T)` and `(F,T) → (F,F)`. -/
theorem claim_C4_amended (st : EvhState) (p : Option String) (cfg? : Option Config)
    (tf : Bool) :
    chainOk legalExtStep (sampleevhInit st p cfg? tf).flagTrace = true
    ∧ chainOk legalExtStep (sampleevhDestroy st).flagTrace = true := by
  constructor
  · have h : (sampleevhInit st p cfg? tf).flagTrace = [st.flags]
        ∨ (st.stopping = false
            ∧ ((sampleevhInit st p cfg? tf).flagTrace
                  = [st.flags, ⟨true, st.stopping⟩, ⟨false, st.stopping⟩]
                ∨ (sampleevhInit st p cfg? tf).flagTrace
                  = [st.flags, ⟨true, st.stopping⟩])) := by
      simp only [sampleevhInit]
      split_ifs with h1 h2 h3 h4 <;> simp_all
    rcases h with h | ⟨hs, h | h⟩ <;>
      rw [h] <;>
      cases hi : st.initialized <;>
      simp_all [EvhState.flags, chainOk, legalExtStep, legalSpecStep]
  · cases hi : st.initialized with
    | false => simp [sampleevhDestroy, hi, EvhState.flags, chainOk]
    | true =>
      cases hs : st.stopping <;>
        simp [sampleevhDestroy, hi, hs, EvhState.flags, chainOk, legalExtStep,
          legalSpecStep]

/-- Witness for C4 (amended) at a concrete live state and a concrete
failing init. -/
theorem claim_C4_amended_witness :
    chainOk legalExtStep
        (sampleevhInit {} (some "conf")
          (some { enabled := some "yes", backend := some "http://x" }) true).flagTrace
      = true
    ∧ chainOk legalExtStep (sampleevhDestroy stLive).flagTrace = true :=
  ⟨(claim_C4_amended {} (some "conf")
      (some { enabled := some "yes", backend := some "http://x" }) true).1,
   (claim_C4_amended stLive (some "conf") Option.none false).2⟩

/-- C5: init fails, leaving the state (and in particular the worker
thread) untouched, whenever the configuration's backend is missing or
does not start with the literal `http` at offset zero; the `strstr`
check is exactly the case-sensitive prefix test, so it accepts every
`http…` URL (hence both `http://` and `https://`) and rejects the
empty string and case variants such as `Http://x`. -/
theorem claim_C5_backend_validation (st : EvhState) (p : Option String) (cfg : Config)
    (tf : Bool)
    (hb : ∀ b, cfg.backend = some b → List.isPrefixOf "http".data b.data = false) :
    (sampleevhInit st p (some cfg) tf).ret = -1
    ∧ (sampleevhInit st p (some cfg) tf).st = st
    ∧ (∀ b, backendValid b = List.isPrefixOf "http".data b.data)
    ∧ (∀ s, backendValid ("http" ++ s) = true)
    ∧ backendValid "Http://x" = false
    ∧ backendValid "" = false := by
  have hmain : sampleevhInit st p (some cfg) tf = ⟨-1, st, [st.flags]⟩ := by
    rcases cfg with ⟨en?, b?, v?⟩
    simp only [sampleevhInit]
    by_cases h1 : st.stopping
    · simp [h1]
    · by_cases h2 : p.isNone
      · simp [h1, h2]
      · rcases en? with _ | en
        · simp [h1, h2]
        · by_cases hen : isTrue en = true
          · rcases b? with _ | b
            · simp [h1, h2, hen]
            · have hbv : backendValid b = false := by
                rw [backendValid_eq]
                exact hb b rfl
              simp [h1, h2, hen, hbv]
          · simp [h1, h2, hen]
  refine ⟨by rw [hmain], by rw [hmain], backendValid_eq, ?_, ?_, ?_⟩
  · intro s
    rw [backendValid_eq, String.data_append]
    exact List.isPrefixOf_iff_prefix.mpr (List.prefix_append _ _)
  · decide
  · decide

/-- Witness for C5 at a concrete configuration with an `ftp://` backend
(the spec's scenario S2). -/
theorem claim_C5_backend_validation_witness :
    (sampleevhInit {} (some "conf")
        (some { enabled := some "yes", backend := some "ftp://x" }) false).ret = -1
    ∧ (sampleevhInit {} (some "conf")
        (some { enabled := some "yes", backend := some "ftp://x" }) false).st = {}
    ∧ backendValid "https://x" = true :=
  have h := claim_C5_backend_validation {} (some "conf")
    { enabled := some "yes", backend := some "ftp://x" } false
    (by
      rintro b hb
      cases hb
      decide)
  ⟨h.1, h.2.1, h.2.2.2.1 "s://x"⟩

/-- C6: when the queue is destroyed, the destroy notifier
`janus_sampleevh_event_free` releases each queued event reference
exactly once (the drain contains each event id as many times as the
queue holds references to it), and both NULL and the `exit_event`
sentinel are no-ops. -/
theorem claim_C6_drain (q : List Entry) (i : Nat) :
    (queueDrainReleases q).count i = q.count (Entry.ev i)
    ∧ eventFreeReleases Option.none = []
    ∧ eventFreeReleases (some Entry.sentinel) = [] := by
  refine ⟨?_, rfl, rfl⟩
  induction q with
  | nil => rfl
  | cons e t ih =>
    cases e with
    | ev j =>
      by_cases hj : j = i <;>
        simp_all [queueDrainReleases, eventFreeReleases, List.count_cons]
    | sentinel =>
      simp_all [queueDrainReleases, eventFreeReleases, List.count_cons]

/-- C7: destroy is idempotent: with `initialised` clear it returns at
once changing nothing; a completed destroy leaves both lifecycle flags
false, so a second destroy is a no-op and a subsequent init with a good
configuration succeeds again. -/
theorem claim_C7_destroy_idempotent (st : EvhState) :
    (st.initialized = false → (sampleevhDestroy st).st = st)
    ∧ (sampleevhDestroy (sampleevhDestroy st).st).st = (sampleevhDestroy st).st
    ∧ (st.initialized = true →
        (sampleevhDestroy st).st.initialized = false
        ∧ (sampleevhDestroy st).st.stopping = false)
    ∧ (st.initialized = true →
        ∀ (p en b : String), isTrue en = true → backendValid b = true →
          (sampleevhInit (sampleevhDestroy st).st (some p)
            (some { enabled := some en, backend := some b }) false).ret = 0) := by
  refine ⟨?_, ?_, ?_, ?_⟩
  · intro h
    simp [sampleevhDestroy, h]
  · by_cases hi : st.initialized = true
    · simp [sampleevhDestroy, hi]
    · simp [sampleevhDestroy, hi]
  · intro hi
    simp [sampleevhDestroy, hi]
  · intro hi p en b hen hbv
    simp [sampleevhDestroy, hi, sampleevhInit, hen, hbv]

/-- Witness for C7 at a concrete live state. -/
theorem claim_C7_destroy_idempotent_witness :
    (sampleevhDestroy (sampleevhDestroy stLive).st).st = (sampleevhDestroy stLive).st
    ∧ (sampleevhDestroy stLive).st.initialized = false
    ∧ (sampleevhDestroy stLive).st.stopping = false
    ∧ (sampleevhInit (sampleevhDestroy stLive).st (some "conf")
        (some { enabled := some "yes", backend := some "http://x" }) false).ret = 0 :=
  have h := claim_C7_destroy_idempotent stLive
  ⟨h.2.1, (h.2.2.1 rfl).1, (h.2.2.1 rfl).2,
    h.2.2.2 rfl "conf" "yes" "http://x" (by decide) (by decide)⟩

/-- C8 counterexample: an event whose `timestamp` member is a JSON real
carries a numeric timestamp, yet the worker checks `json_is_integer` and
skips the latency debug log for it (the claim promises the log for any
numeric value); the event is still processed and released. -/
theorem claim_C8_counterexample :
    jsonObjectGet evReal "timestamp" = some Json.jreal
    ∧ jsonIsNumber Json.jreal = true
    ∧ jsonIsInteger Json.jreal = false
    ∧ (handlerStep ⟨true, false⟩ true 1000 contReal [Entry.ev 0]).latencyLog = Option.none
    ∧ (handlerStep ⟨true, false⟩ true 1000 contReal [Entry.ev 0]).released = [0] :=
  ⟨rfl, rfl, rfl, rfl, rfl⟩

/-- C8 (amended): the latency debug line is emitted exactly when the
event's `timestamp` member exists and is a JSON integer, reporting
`now − timestamp`; a missing or non-integer member (JSON reals
included) skips the log silently and processing continues to release
the event. -/
theorem claim_C8_amended (curlOk : Bool) (now : Int) (content : Nat → Json)
    (i : Nat) (rest : List Entry) :
    (∀ t : Int, jsonObjectGet (content i) "timestamp" = some (Json.jint t) →
      (handlerStep ⟨true, false⟩ curlOk now content (Entry.ev i :: rest)).latencyLog
        = some (now - t))
    ∧ ((∀ t : Int, ¬ jsonObjectGet (content i) "timestamp" = some (Json.jint t)) →
      (handlerStep ⟨true, false⟩ curlOk now content (Entry.ev i :: rest)).latencyLog
        = Option.none)
    ∧ (handlerStep ⟨true, false⟩ curlOk now content (Entry.ev i :: rest)).released
        = [i] := by
  refine ⟨?_, ?_, ?_⟩
  · intro t ht
    cases curlOk <;> simp [handlerStep, ht]
  · intro hnone
    cases hg : jsonObjectGet (content i) "timestamp" with
    | none => cases curlOk <;> simp [handlerStep, hg]
    | some x =>
      cases x <;>
        first
        | exact absurd hg (hnone _)
        | cases curlOk <;> simp [handlerStep, hg]
  · cases curlOk <;> simp [handlerStep]

/-- Witness for C8 (amended): an integer timestamp of 25 at time 1000
logs a latency of 975. -/
theorem claim_C8_amended_witness :
    (handlerStep ⟨true, false⟩ true 1000 contInt [Entry.ev 0]).latencyLog = some 975 := by
  have h := (claim_C8_amended true 1000 contInt 0 []).1 25 rfl
  simpa using h

/-- C9: destroy never touches the events mask and a fresh init only sets
bits into it (the list branch of the parser unions into whatever mask is
already published), so `init(events=A); destroy; init(events=B)` ends
with the union of the kinds of A and of B, not the kinds of B alone. -/
theorem claim_C9_mask_accumulates (st : EvhState)
    (pA pB enA enB bA bB vA vB : String)
    (h0 : st.eventsMask = Mask.empty)
    (hstop : st.stopping = false)
    (henA : isTrue enA = true) (hbA : backendValid bA = true)
    (hnA : caseEq vA "none" = false) (haA : caseEq vA "all" = false)
    (henB : isTrue enB = true) (hbB : backendValid bB = true)
    (hnB : caseEq vB "none" = false) (haB : caseEq vB "all" = false) :
    (sampleevhDestroy (sampleevhInit st (some pA)
        (some { enabled := some enA, backend := some bA, events := some vA })
        false).st).st.eventsMask
      = (sampleevhInit st (some pA)
          (some { enabled := some enA, backend := some bA, events := some vA })
          false).st.eventsMask
    ∧ (sampleevhInit
        (sampleevhDestroy (sampleevhInit st (some pA)
          (some { enabled := some enA, backend := some bA, events := some vA })
          false).st).st
        (some pB)
        (some { enabled := some enB, backend := some bB, events := some vB })
        false).st.eventsMask
      = Mask.union (tokensMask (splitComma vA)) (tokensMask (splitComma vB)) := by
  rcases st with ⟨i0, s0, m0, b0, q0, c0, t0⟩
  simp only at h0 hstop
  subst h0
  subst hstop
  constructor
  · simp [sampleevhInit, sampleevhDestroy, henA, hbA]
  · simp [sampleevhInit, sampleevhDestroy, henA, hbA, henB, hbB,
      parseEventsValue_eq hnA haA, parseEventsValue_eq hnB haB,
      Mask.empty_union]

/-- Witness for C9: `init(events=sessions); destroy;
init(events=handles)` publishes `{session, handle}`, which differs from
the `{handle}` that parsing `handles` alone yields. -/
theorem claim_C9_mask_accumulates_witness :
    (sampleevhInit
        (sampleevhDestroy (sampleevhInit {} (some "conf")
          (some { enabled := some "yes", backend := some "http://x",
                  events := some "sessions" }) false).st).st
        (some "conf")
        (some { enabled := some "yes", backend := some "http://x",
                events := some "handles" }) false).st.eventsMask
      = { session := true, handle := true }
    ∧ ({ session := true, handle := true } : Mask)
        ≠ tokensMask (splitComma "handles") := by
  have h := claim_C9_mask_accumulates {} "conf" "conf" "yes" "yes"
    "http://x" "http://x" "sessions" "handles" rfl rfl
    (by decide) (by decide) (by decide) (by decide)
    (by decide) (by decide) (by decide) (by decide)
  refine ⟨?_, by decide⟩
  rw [h.2]
  decide

/-- C10: when init fails because the worker thread could not be started,
only `initialised` is rolled back: the queue stays created, the backend
string stays copied, the curl global initialisation stays done, and
`stopping` and the thread slot are untouched; destroy on that state is a
no-op since `initialised` is false. -/
theorem claim_C10_init_thread_failure (st : EvhState) (p en b : String)
    (v? : Option String)
    (hstop : st.stopping = false)
    (hen : isTrue en = true) (hbv : backendValid b = true) :
    (sampleevhInit st (some p)
        (some { enabled := some en, backend := some b, events := v? }) true).ret = -1
    ∧ (sampleevhInit st (some p)
        (some { enabled := some en, backend := some b, events := v? }) true).st.initialized
        = false
    ∧ (sampleevhInit st (some p)
        (some { enabled := some en, backend := some b, events := v? }) true).st.stopping
        = st.stopping
    ∧ (sampleevhInit st (some p)
        (some { enabled := some en, backend := some b, events := v? }) true).st.queue
        = some []
    ∧ (sampleevhInit st (some p)
        (some { enabled := some en, backend := some b, events := v? }) true).st.backend
        = some b
    ∧ (sampleevhInit st (some p)
        (some { enabled := some en, backend := some b, events := v? }) true).st.curlInited
        = true
    ∧ (sampleevhInit st (some p)
        (some { enabled := some en, backend := some b, events := v? }) true).st.handlerThread
        = st.handlerThread
    ∧ (sampleevhDestroy (sampleevhInit st (some p)
        (some { enabled := some en, backend := some b, events := v? }) true).st).st
      = (sampleevhInit st (some p)
          (some { enabled := some en, backend := some b, events := v? }) true).st := by
  rcases st with ⟨i0, s0, m0, b0, q0, c0, t0⟩
  simp only at hstop
  subst hstop
  cases v? <;>
    simp [sampleevhInit, sampleevhDestroy, hen, hbv]

/-- Witness for C10 at a concrete configuration. -/
theorem claim_C10_init_thread_failure_witness :
    (sampleevhInit {} (some "conf")
        (some { enabled := some "yes", backend := some "http://x" }) true).ret = -1
    ∧ (sampleevhInit {} (some "conf")
        (some { enabled := some "yes", backend := some "http://x" }) true).st.queue
        = some []
    ∧ (sampleevhInit {} (some "conf")
        (some { enabled := some "yes", backend := some "http://x" }) true).st.curlInited
        = true :=
  have h := claim_C10_init_thread_failure {} "conf" "yes" "http://x" Option.none
    rfl (by decide) (by decide)
  ⟨h.1, h.2.2.2.1, h.2.2.2.2.2.1⟩

end JanusSampleEvh
